import Mathlib

/-!
Shallow embedding of the browser client in src/aiaio/app/static/script.js:
the push-channel message dispatcher, the streaming chat submit loop, the
assistant-message renderer with its scroll logic, and the reconnecting
socket lifecycle, together with proofs about the frozen claims.

The markdown renderer (the third-party marked.parse, together with its
highlight hook) is threaded through as an abstract function
mp : String → String, since the claims quantify over the rendered output
of the accumulated buffer rather than over markdown semantics.
-/

namespace Aiaio

/-- JavaScript truthiness of a possibly-absent string value (undefined and
the empty string are falsy). -/
def jsTruthy : Option String → Bool
  | none => false
  | some s => !(s == "")

/-- String conversion of a possibly-absent JS value, as template
interpolation would produce it (undefined prints as "undefined"). -/
def jsToString : Option String → String
  | none => "undefined"
  | some s => s

/-- Whitespace recognised by the JS String trim method, restricted to the
ASCII whitespace that occurs in chat input. -/
def isJsWs (c : Char) : Bool := c == ' ' || c == '\t' || c == '\n' || c == '\r'

/-- Model of the JS String trim method: strip whitespace from both ends. -/
def jsTrim (s : String) : String :=
  String.mk (((s.data.dropWhile isJsWs).reverse.dropWhile isJsWs).reverse)

/-- Concatenation c1 ++ ... ++ cn of a chunk sequence. -/
def concatChunks : List String → String
  | [] => ""
  | c :: cs => c ++ concatChunks cs

theorem string_append_assoc (a b c : String) : a ++ b ++ c = a ++ (b ++ c) := by
  rcases a with ⟨as⟩; rcases b with ⟨bs⟩; rcases c with ⟨cs⟩
  show String.mk ((as ++ bs) ++ cs) = String.mk (as ++ (bs ++ cs))
  rw [List.append_assoc]

theorem string_append_nil (a : String) : a ++ "" = a := by
  rcases a with ⟨as⟩
  show String.mk (as ++ []) = String.mk as
  rw [List.append_nil]

theorem string_nil_append (a : String) : "" ++ a = a := by
  rcases a with ⟨as⟩
  show String.mk ([] ++ as) = String.mk as
  rw [List.nil_append]

/-- Replace the element at index i by applying f; out of range leaves the
list unchanged. -/
def updAt {α : Type} : List α → Nat → (α → α) → List α
  | [], _, _ => []
  | a :: l, 0, f => f a :: l
  | a :: l, n+1, f => a :: updAt l n f

/-- Apply f to the last element of a list. -/
def updLast {α : Type} (f : α → α) : List α → List α
  | [] => []
  | [a] => [f a]
  | a :: b :: l => a :: updLast f (b :: l)

theorem updAt_length {α : Type} (l : List α) (i : Nat) (f : α → α) :
    (updAt l i f).length = l.length := by
  induction l generalizing i with
  | nil => rfl
  | cons a l ih =>
    cases i with
    | zero => rfl
    | succ n => simp [updAt, ih]

theorem updLast_length {α : Type} (f : α → α) (l : List α) :
    (updLast f l).length = l.length := by
  induction l with
  | nil => rfl
  | cons a l ih =>
    cases l with
    | nil => rfl
    | cons b m => simpa [updLast] using ih

theorem getLast?_cons_ne {α : Type} (a : α) (l : List α) (h : l ≠ []) :
    (a :: l).getLast? = l.getLast? := by
  cases l with
  | nil => exact absurd rfl h
  | cons b m => exact List.getLast?_cons_cons

theorem updLast_ne_nil {α : Type} (f : α → α) (b : α) (m : List α) :
    updLast f (b :: m) ≠ [] := by
  cases m <;> simp [updLast]

theorem updLast_getLast? {α : Type} (f : α → α) (l : List α) :
    (updLast f l).getLast? = l.getLast?.map f := by
  induction l with
  | nil => rfl
  | cons a l ih =>
    cases l with
    | nil => rfl
    | cons b m =>
      rw [updLast, getLast?_cons_ne a _ (updLast_ne_nil f b m), ih,
        List.getLast?_cons_cons]

theorem updAt_last_eq_updLast {α : Type} (l : List α) (f : α → α) (i : Nat)
    (h : i + 1 = l.length) : updAt l i f = updLast f l := by
  induction l generalizing i with
  | nil => simp at h
  | cons a l ih =>
    cases l with
    | nil =>
      have : i = 0 := by simpa using h
      subst this; rfl
    | cons b m =>
      cases i with
      | zero => simp at h
      | succ n =>
        have hn : n + 1 = (b :: m).length := by simpa using h
        simp [updAt, updLast, ih n hn]

theorem updAt_updAt {α : Type} (l : List α) (i : Nat) (f g : α → α) :
    updAt (updAt l i f) i g = updAt l i (fun a => g (f a)) := by
  induction l generalizing i with
  | nil => rfl
  | cons a l ih =>
    cases i with
    | zero => rfl
    | succ n => simp [updAt, ih]

theorem countP_updAt {α : Type} (p : α → Bool) (l : List α) (i : Nat) (f : α → α)
    (h : ∀ a, p (f a) = p a) : (updAt l i f).countP p = l.countP p := by
  induction l generalizing i with
  | nil => rfl
  | cons a l ih =>
    cases i with
    | zero => simp [updAt, List.countP_cons, h]
    | succ n => simp [updAt, List.countP_cons, ih]

theorem countP_updLast {α : Type} (p : α → Bool) (l : List α) (f : α → α)
    (h : ∀ a, p (f a) = p a) : (updLast f l).countP p = l.countP p := by
  induction l with
  | nil => rfl
  | cons a l ih =>
    cases l with
    | nil => simp [updLast, List.countP_cons, h]
    | cons b m => simpa [updLast, List.countP_cons] using ih

/-- How an onclick closure obtained the message id it will pass along:
either it captured a value at bind time, or it reads the element's
dataset.messageId when clicked. -/
inductive IdSrc where
  | captured (v : Option String)
  | liveDataset
  deriving DecidableEq

/-- How an onclick closure obtains the content argument: a string captured
at bind time, or the element's prose innerHTML read at click time. -/
inductive EditContentSrc where
  | captured (s : String)
  | liveProse
  deriving DecidableEq

/-- Observable side effects of the handlers: network requests, scheduled
timers, console output and user-visible notifications. -/
inductive Effect where
  | loadConversations
  | updateSystemPromptFetch
  | fetchCreateConversation
  | fetchChat
  | showModalE (title msg mtype : String) (hasCloseButton : Bool)
  | showToastE (msg mtype : String)
  | consoleError (msg : String)
  | smoothScroll
  | scheduleReconnect (delayMs : Nat)
  | createConnection (id : Nat)
  deriving DecidableEq

/-- The showModal helper always creates a Close (or Cancel) button before
any confirm button, so every modal it opens is dismissible. -/
def showModalCall (title msg mtype : String) : Effect :=
  Effect.showModalE title msg mtype true

/-- Effects that the user can see in the page (modal dialogs and toasts);
console output and network traffic are not user-visible. -/
def userVisibleEffect : Effect → Bool
  | Effect.showModalE _ _ _ _ => true
  | Effect.showToastE _ _ => true
  | _ => false

/-- One entry of the sidebar conversation list, carrying the
data-conversation-id attribute and its summary-text node. -/
structure ConvItem where
  conversationId : String
  summaryText : String
  deriving DecidableEq

/-- One child of the messages container. role is "user" or "assistant"
for message bubbles, and "empty" for the empty-state placeholder div that
startNewConversation installs. messageId models the dataset.messageId
attribute (none when absent). proseHtml is the innerHTML of the
.prose / .message-content node. The has* flags record which affordance
buttons exist in the element, and the bindings record the arguments their
onclick closures will pass. -/
structure MessageElem where
  role : String
  messageId : Option String
  proseHtml : String
  hasRegenBtn : Bool
  hasEditBtn : Bool
  hasInlineEditBtn : Bool
  regenBinding : Option String
  editBinding : IdSrc × EditContentSrc
  deriving DecidableEq

/-- Scroll geometry of the chat-messages pane, read live by handleScroll
and updateAssistantMessage. -/
structure ScrollGeom where
  scrollTop : Int
  scrollHeight : Int
  clientHeight : Int
  deriving DecidableEq

/-- The mutable client state: the global state record plus the DOM state
the claims are about (messages container children, conversation list,
scroll pane, submit controls). currentAssistantMessage holds the index of
the streaming placeholder inside messages (the code holds a direct element
reference; the claims considered never detach it). -/
structure ClientState where
  currentConversationId : Option String
  messages : List MessageElem
  convList : List ConvItem
  currentAssistantMessage : Option Nat
  isScrolledManually : Bool
  jumpBtnVisible : Bool
  geom : ScrollGeom
  abortControllerActive : Bool
  sendButtonDisabled : Bool
  stopButtonHidden : Bool
  inputText : String
  selectedFiles : List String
  filePreviewHidden : Bool
  deriving DecidableEq

/-- Number of assistant message bubbles in the container. -/
def assistantCount (l : List MessageElem) : Nat :=
  l.countP (fun m => m.role == "assistant")

/-- scrollToBottom: smooth-scrolls the chat pane to the bottom, clears the
manual-scroll flag and hides the jump-to-bottom button. The smooth scroll
is modelled as the scroll position reaching the bottom. -/
def scrollToBottom (st : ClientState) : ClientState × List Effect :=
  ({ st with
      geom := { st.geom with scrollTop := st.geom.scrollHeight - st.geom.clientHeight },
      isScrolledManually := false,
      jumpBtnVisible := false }, [Effect.smoothScroll])

/-- handleScroll: fires on scroll events of the chat pane; within 50px of
the bottom counts as at-bottom and clears the manual-scroll flag,
otherwise the flag is set and the jump-to-bottom button shown. -/
def handleScroll (st : ClientState) : ClientState :=
  if (st.geom.scrollHeight - st.geom.clientHeight - st.geom.scrollTop).natAbs < 50 then
    { st with isScrolledManually := false, jumpBtnVisible := false }
  else
    { st with isScrolledManually := true, jumpBtnVisible := true }

/-- The typing-indicator markup installed as initial content of a
streaming placeholder (three animated dots). -/
def typingIndicatorHtml : String := "typing-indicator"

/-- Removing the empty-state div: appendUserMessage and
createAssistantMessage clear the whole container when the empty-state
placeholder is present. -/
def clearEmptyState (msgs : List MessageElem) : List MessageElem :=
  if msgs.any (fun m => m.role == "empty") then [] else msgs

theorem clearEmptyState_no_empty (msgs : List MessageElem) :
    (clearEmptyState msgs).any (fun m => m.role == "empty") = false := by
  unfold clearEmptyState
  split
  · rfl
  · rename_i h
    simpa using h

/-- createAssistantMessage: clears the empty state if present, builds an
assistant bubble whose dataset.messageId is set only when the argument is
truthy, whose content is the argument or the typing indicator when empty,
and binds the regenerate and edit buttons to the captured argument values.
Returns the state and the index of the new element. -/
def createAssistantMessageEl (messageId : Option String) (content : String)
    (st : ClientState) : ClientState × Nat :=
  let msgs := clearEmptyState st.messages
  let elem : MessageElem :=
    { role := "assistant"
      messageId := if jsTruthy messageId then messageId else none
      proseHtml := if content == "" then typingIndicatorHtml else content
      hasRegenBtn := true
      hasEditBtn := true
      hasInlineEditBtn := false
      regenBinding := messageId
      editBinding := (IdSrc.captured messageId, EditContentSrc.captured content) }
  ({ st with messages := msgs ++ [elem] }, msgs.length)

/-- appendUserMessage: clears the empty state if present, appends a user
bubble (dataset.messageId only when truthy, inline edit button whose
onclick attribute interpolates the id or the empty string), then scrolls
to the bottom. The attachments argument only affects markup inside the
bubble and is not otherwise tracked. -/
def appendUserMessage (content : String) (messageId : Option String)
    (_atts : List String) (st : ClientState) : ClientState × List Effect :=
  let msgs := clearEmptyState st.messages
  let elem : MessageElem :=
    { role := "user"
      messageId := if jsTruthy messageId then messageId else none
      proseHtml := content
      hasRegenBtn := false
      hasEditBtn := false
      hasInlineEditBtn := true
      regenBinding := none
      editBinding := (IdSrc.captured (some (messageId.getD "")), EditContentSrc.captured content) }
  scrollToBottom { st with messages := msgs ++ [elem] }

/-- The element-level effect of one updateAssistantMessage call on its
target: the prose is re-rendered from the whole buffer, and when the edit
button exists its onclick is rebound to read the element's
dataset.messageId at click time with the buffer captured. -/
def chunkApply (mp : String → String) (b : String) (m : MessageElem) : MessageElem :=
  let m1 := { m with proseHtml := mp b }
  if m1.hasEditBtn then
    { m1 with editBinding := (IdSrc.liveDataset, EditContentSrc.captured b) }
  else m1

/-- Body of updateAssistantMessage once the target element (index i) is
resolved: re-render the full content, conditionally auto-scroll (when
within 100px of the bottom or not manually scrolled), rebind the edit
button, and scroll again when the manual flag is clear. Syntax
highlighting and copy-button insertion stay inside the element and are
not modelled. -/
def updateAssistantMessageAt (mp : String → String) (content : String) (i : Nat)
    (st : ClientState) : ClientState × List Effect :=
  let st1 := { st with
    messages := updAt st.messages i (fun m => { m with proseHtml := mp content }) }
  let near : Bool :=
    decide (st1.geom.scrollHeight - st1.geom.scrollTop - st1.geom.clientHeight < 100)
  let r1 := if near || !st1.isScrolledManually then scrollToBottom st1 else (st1, [])
  let st3 := { r1.1 with
    messages := updAt r1.1.messages i (fun m =>
      if m.hasEditBtn then
        { m with editBinding := (IdSrc.liveDataset, EditContentSrc.captured content) }
      else m) }
  let r2 := if !st3.isScrolledManually then scrollToBottom st3 else (st3, [])
  (r2.1, r1.2 ++ r2.2)

/-- Resolution of the implicit target: when no element is passed, use the
current streaming placeholder, creating one when absent. -/
def resolveCurrent (st : ClientState) : ClientState × Nat :=
  match st.currentAssistantMessage with
  | some i => (st, i)
  | none =>
      let r := createAssistantMessageEl none "" st
      ({ r.1 with currentAssistantMessage := some r.2 }, r.2)

/-- updateAssistantMessage(content, messageDiv): renders content into the
given element, or into the current streaming placeholder when messageDiv
is omitted. -/
def updateAssistantMessage (mp : String → String) (content : String)
    (mdOpt : Option Nat) (st : ClientState) : ClientState × List Effect :=
  match mdOpt with
  | some i => updateAssistantMessageAt mp content i st
  | none =>
      let r := resolveCurrent st
      updateAssistantMessageAt mp content r.2 r.1

/-- startNewConversation: installs the empty-state markup, clears the
current conversation id and the input affordances (the selectedFiles
array itself is not cleared here), refreshes the system prompt and the
conversation list. -/
def startNewConversation (st : ClientState) : ClientState × List Effect :=
  let emptyElem : MessageElem :=
    { role := "empty", messageId := none, proseHtml := "",
      hasRegenBtn := false, hasEditBtn := false, hasInlineEditBtn := false,
      regenBinding := none,
      editBinding := (IdSrc.captured none, EditContentSrc.captured "") }
  ({ st with
      messages := [emptyElem]
      currentConversationId := none
      inputText := ""
      filePreviewHidden := true },
   [Effect.updateSystemPromptFetch, Effect.loadConversations])

/-- One push-channel event as parsed from the socket payload. Fields that
a given event kind does not carry are absent. -/
structure WSEvent where
  type : String
  conversation_id : String
  message_id : Option String
  role : Option String
  content : Option String
  summary : Option String
  deriving DecidableEq

/-- The element transformation the message_added reconciliation applies to
the last rendered message: set dataset.messageId and rebind the regenerate
and edit buttons (when present) to the event id; the rendered prose is not
touched. -/
def bindDurableId (mid : Option String) (m : MessageElem) : MessageElem :=
  let m1 := { m with messageId := mid }
  let m2 := if m1.hasRegenBtn then { m1 with regenBinding := mid } else m1
  if m2.hasEditBtn then
    { m2 with editBinding := (IdSrc.captured mid, EditContentSrc.liveProse) }
  else m2

/-- handleWebSocketMessage: the push-event dispatcher. The three
conversation-level kinds refresh the conversation list; a message_added
for the displayed conversation additionally binds the event id to the
last rendered message when that element has no durable id yet; a
conversation_deleted for the displayed conversation resets the pane.
message_edited rewrites the matching element in place, summary_updated
rewrites the matching list entry, and any other kind does nothing. -/
def handleWebSocketMessage (mp : String → String) (data : WSEvent)
    (st : ClientState) : ClientState × List Effect :=
  if data.type = "conversation_created" ∨ data.type = "conversation_deleted" ∨
     data.type = "message_added" then
    if data.type = "message_added" ∧ st.currentConversationId = some data.conversation_id then
      match st.messages.getLast? with
      | some lastMessage =>
          if jsTruthy lastMessage.messageId = false ∧ jsTruthy data.message_id = true then
            ({ st with messages := updLast (bindDurableId data.message_id) st.messages },
             [Effect.loadConversations])
          else (st, [Effect.loadConversations])
      | none => (st, [Effect.loadConversations])
    else if data.type = "conversation_deleted" ∧
            st.currentConversationId = some data.conversation_id then
      let r := startNewConversation st
      (r.1, Effect.loadConversations :: r.2)
    else (st, [Effect.loadConversations])
  else if data.type = "message_edited" then
    match st.messages.findIdx? (fun m => m.messageId == some (jsToString data.message_id)) with
    | some idx =>
        if data.role = some "assistant" then
          updateAssistantMessage mp (jsToString data.content) (some idx) st
        else
          ({ st with messages := updAt st.messages idx (fun m =>
              let m1 := { m with proseHtml := jsToString data.content }
              if m1.hasInlineEditBtn then
                { m1 with editBinding :=
                    (IdSrc.captured data.message_id,
                     EditContentSrc.captured (jsToString data.content)) }
              else m1) }, [])
    | none => (st, [])
  else if data.type = "summary_updated" then
    match st.convList.findIdx? (fun cv => cv.conversationId == data.conversation_id) with
    | some idx =>
        ({ st with convList := updAt st.convList idx (fun cv =>
            { cv with summaryText :=
                if jsTruthy data.summary then jsToString data.summary else "No summary" }) },
         [])
    | none => (st, [])
  else (st, [])

/-- The chat submit handler up to the point where the streaming response
loop starts: bail out when the trimmed input and the file selection are
both empty; otherwise arm the abort controller, clear the input, swap the
send button for the stop button, create the conversation when none is
displayed (the fresh id newConvId comes back from the server), append the
user bubble optimistically, clear the file previews and create the
streaming placeholder, recorded as the current assistant message. -/
def beginStream (newConvId : String) (st : ClientState) : ClientState × List Effect :=
  let message := jsTrim st.inputText
  let files := st.selectedFiles
  if message = "" ∧ files = [] then (st, [])
  else
    let stA := { st with
      abortControllerActive := true
      inputText := ""
      sendButtonDisabled := true
      stopButtonHidden := false }
    let rConv : ClientState × List Effect :=
      match stA.currentConversationId with
      | none => ({ stA with currentConversationId := some newConvId },
                 [Effect.fetchCreateConversation, Effect.loadConversations])
      | some _ => (stA, [])
    let rUser := appendUserMessage message none files rConv.1
    let stB := { rUser.1 with selectedFiles := [], filePreviewHidden := true }
    let rAsst := createAssistantMessageEl none "" stB
    let stC := { rAsst.1 with currentAssistantMessage := some rAsst.2 }
    (stC, rConv.2 ++ rUser.2 ++ [Effect.fetchChat])

/-- The streaming read loop: each chunk is appended to the accumulated
response text and the placeholder is re-rendered from the whole buffer
via updateAssistantMessage with no explicit target. Returns the final
buffer and state. -/
def runChunks (mp : String → String) : List String → String → ClientState →
    String × ClientState
  | [], buf, st => (buf, st)
  | c :: cs, buf, st =>
      let buf1 := buf ++ c
      let st1 := (updateAssistantMessage mp buf1 none st).1
      runChunks mp cs buf1 st1

/-- Iterated element-level effect of a chunk sequence on the placeholder. -/
def chunksApply (mp : String → String) : List String → String → MessageElem → MessageElem
  | [], _, m => m
  | c :: cs, buf, m => chunksApply mp cs (buf ++ c) (chunkApply mp (buf ++ c) m)

/-- One JS error value, as far as the catch clause inspects it. -/
structure JsError where
  name : String
  message : String
  deriving DecidableEq

/-- The catch clause of the submit handler: an AbortError is silent; any
other error is logged to the console, drops the current-assistant-message
reference and opens a dismissible error modal. The placeholder element and
its partial content are never removed. -/
def streamCatch (err : Option JsError) (st : ClientState) : ClientState × List Effect :=
  match err with
  | none => (st, [])
  | some e =>
      if e.name = "AbortError" then (st, [])
      else
        ({ st with currentAssistantMessage := none },
         [Effect.consoleError e.message,
          showModalCall "Error" ("Something went wrong: " ++ e.message) "error"])

/-- The finally clause of the submit handler: re-enable and show the send
button, hide the stop button, release the abort controller and the
current-assistant-message reference. -/
def streamFinally (st : ClientState) : ClientState :=
  { st with
      sendButtonDisabled := false
      stopButtonHidden := true
      abortControllerActive := false
      currentAssistantMessage := none }

/-- End of one streaming attempt: the catch clause (when an error was
thrown) followed by the finally clause. err none models normal
completion or completion of the error-free part. -/
def onStreamError (err : Option JsError) (st : ClientState) : ClientState × List Effect :=
  let r := streamCatch err st
  (streamFinally r.1, r.2)

/-- The handle of one WebSocket object: readyState 0 is CONNECTING, 1 is
OPEN, 3 is CLOSED. The id distinguishes distinct connection objects. -/
structure WSConn where
  id : Nat
  readyState : Nat
  deriving DecidableEq

/-- The connection-owning part of the client: the global state.ws handle
and a counter supplying fresh connection identities. -/
structure WSClient where
  ws : Option WSConn
  nextConnId : Nat
  deriving DecidableEq

/-- connectWebSocket: unconditionally constructs a new WebSocket (which
starts CONNECTING) and overwrites state.ws with it; the handlers installed
on it are the ones modelled by wsOnOpen, wsCloseEvent and wsErrorEvent. -/
def connectWebSocket (s : WSClient) : WSClient × List Effect :=
  ({ ws := some { id := s.nextConnId, readyState := 0 }, nextConnId := s.nextConnId + 1 },
   [Effect.createConnection s.nextConnId])

/-- The onopen handler only logs to the console; the socket becomes OPEN. -/
def wsOnOpen (s : WSClient) : WSClient :=
  match s.ws with
  | some c => { s with ws := some { c with readyState := 1 } }
  | none => s

/-- The onclose handler of every connection made by connectWebSocket:
schedule a reconnect (a setTimeout of connectWebSocket) after the fixed
3000ms delay. Nothing is shown to the user. -/
def wsCloseEvent (s : WSClient) : WSClient × List Effect :=
  match s.ws with
  | some c => ({ s with ws := some { c with readyState := 3 } },
               [Effect.scheduleReconnect 3000])
  | none => (s, [])

/-- The onerror handler only logs to the console. -/
def wsErrorEvent (s : WSClient) : WSClient × List Effect :=
  (s, [Effect.consoleError "WebSocket error"])

/-- One drop-and-retry round: the connection errors, closes (scheduling
the retry), and the timer then fires connectWebSocket. -/
def wsRound (s : WSClient) : WSClient × List Effect :=
  let r0 := wsErrorEvent s
  let r1 := wsCloseEvent r0.1
  let r2 := connectWebSocket r1.1
  (r2.1, r0.2 ++ r1.2 ++ r2.2)

/-- n successive drop-and-retry rounds. -/
def wsRounds : Nat → WSClient → WSClient × List Effect
  | 0, s => (s, [])
  | n+1, s =>
      let r1 := wsRound s
      let r2 := wsRounds n r1.1
      (r2.1, r1.2 ++ r2.2)

/-- Recognises the scheduling of the fixed-delay reconnect. -/
def isReconnectSchedule : Effect → Bool
  | Effect.scheduleReconnect d => d == 3000
  | _ => false

/-- handleVisibilityChange, restricted to its connection management: when
the tab becomes visible, reconnect unless the handle exists and is OPEN
(readyState 1), then refresh the conversation list. -/
def handleVisibilityChange (hidden : Bool) (s : WSClient) : WSClient × List Effect :=
  if hidden then (s, [])
  else
    let r :=
      match s.ws with
      | none => connectWebSocket s
      | some c => if c.readyState = 1 then (s, []) else connectWebSocket s
    (r.1, r.2 ++ [Effect.loadConversations])

/-- One in-flight streaming request loop: its accumulated responseText and
whether its reader is still being awaited. -/
structure LoopSt where
  buffer : String
  active : Bool
  deriving DecidableEq

/-- Client state together with the set of live streaming loops and an
audit log of which loop wrote into which message element. -/
structure AppState where
  client : ClientState
  loops : List LoopSt
  writes : List (Nat × Nat)
  deriving DecidableEq

/-- User-interface events interleaved on the event loop: keydown Enter in
the input (which calls chatForm.requestSubmit and therefore fires the
submit handler regardless of the send button being disabled), a click on
the send button (a disabled button fires nothing), the arrival of the
next chunk of the identified streaming loop, and normal completion of a
loop (its finally clause). -/
inductive UiEv where
  | pressEnter (typed : String)
  | clickSend (typed : String)
  | chunk (loopId : Nat) (c : String)
  | done (loopId : Nat)
  deriving DecidableEq

/-- The submit handler invoked with the given text in the input box: when
the guard passes, beginStream runs and a new streaming loop starts. The
guard here is the same emptiness test beginStream performs. -/
def submitHandler (typed : String) (s : AppState) : AppState :=
  let cl0 := { s.client with inputText := typed }
  if jsTrim cl0.inputText = "" ∧ cl0.selectedFiles = [] then { s with client := cl0 }
  else
    let r := beginStream "newconv" cl0
    { s with client := r.1, loops := s.loops ++ [{ buffer := "", active := true }] }

/-- Small-step interpreter of the interleaved user events against the
submit and streaming code. A chunk for loop i appends to that loop's own
responseText and calls updateAssistantMessage with no explicit target,
which resolves the CURRENT streaming placeholder at that moment; the
resolved target index is recorded in the write log. -/
def uiStep (mp : String → String) (s : AppState) (ev : UiEv) : AppState :=
  match ev with
  | UiEv.pressEnter typed => submitHandler typed s
  | UiEv.clickSend typed =>
      if s.client.sendButtonDisabled then s else submitHandler typed s
  | UiEv.chunk i c =>
      match s.loops.get? i with
      | none => s
      | some l =>
          if l.active then
            let buf := l.buffer ++ c
            let rt := resolveCurrent s.client
            let ru := updateAssistantMessageAt mp buf rt.2 rt.1
            { client := ru.1
              loops := updAt s.loops i (fun l0 => { l0 with buffer := buf })
              writes := s.writes ++ [(i, rt.2)] }
          else s
  | UiEv.done i =>
      match s.loops.get? i with
      | none => s
      | some l =>
          if l.active then
            { s with
                client := streamFinally s.client
                loops := updAt s.loops i (fun l0 => { l0 with active := false }) }
          else s

/-- Run a whole event trace. -/
def runTrace (mp : String → String) (evs : List UiEv) (s : AppState) : AppState :=
  evs.foldl (uiStep mp) s

/-- The streaming placeholder as createAssistantMessage builds it from a
null id and empty content. -/
def assistantPlaceholder : MessageElem :=
  { role := "assistant", messageId := none, proseHtml := typingIndicatorHtml,
    hasRegenBtn := true, hasEditBtn := true, hasInlineEditBtn := false,
    regenBinding := none,
    editBinding := (IdSrc.captured none, EditContentSrc.captured "") }

/-- The user bubble appendUserMessage builds from a null id. -/
def userElemOf (content : String) : MessageElem :=
  { role := "user", messageId := none, proseHtml := content,
    hasRegenBtn := false, hasEditBtn := false, hasInlineEditBtn := true,
    regenBinding := none,
    editBinding := (IdSrc.captured (some ""), EditContentSrc.captured content) }

section Lemmas

theorem clearEmptyState_append_user (msgs : List MessageElem) (u : MessageElem)
    (hu : (u.role == "empty") = false) :
    clearEmptyState (clearEmptyState msgs ++ [u]) = clearEmptyState msgs ++ [u] := by
  have h : ((clearEmptyState msgs ++ [u]).any (fun m => m.role == "empty")) = false := by
    rw [List.any_append, clearEmptyState_no_empty msgs]
    simp [hu]
  show (if (clearEmptyState msgs ++ [u]).any (fun m => m.role == "empty") then []
        else clearEmptyState msgs ++ [u]) = clearEmptyState msgs ++ [u]
  rw [h]
  simp

theorem chunkApply_fields (mp : String → String) (b : String) (m : MessageElem) :
    (chunkApply mp b m).role = m.role ∧
    (chunkApply mp b m).messageId = m.messageId ∧
    (chunkApply mp b m).hasRegenBtn = m.hasRegenBtn ∧
    (chunkApply mp b m).hasEditBtn = m.hasEditBtn ∧
    (chunkApply mp b m).regenBinding = m.regenBinding ∧
    (chunkApply mp b m).proseHtml = mp b := by
  cases hE : m.hasEditBtn <;> simp [chunkApply, hE]

theorem chunksApply_fields (mp : String → String) (cs : List String) :
    ∀ (buf : String) (m : MessageElem),
    (chunksApply mp cs buf m).role = m.role ∧
    (chunksApply mp cs buf m).messageId = m.messageId ∧
    (chunksApply mp cs buf m).hasRegenBtn = m.hasRegenBtn ∧
    (chunksApply mp cs buf m).hasEditBtn = m.hasEditBtn ∧
    (chunksApply mp cs buf m).regenBinding = m.regenBinding := by
  induction cs with
  | nil => intro buf m; simp [chunksApply]
  | cons c cs ih =>
    intro buf m
    have h1 := chunkApply_fields mp (buf ++ c) m
    have h2 := ih (buf ++ c) (chunkApply mp (buf ++ c) m)
    simp only [chunksApply]
    exact ⟨h2.1.trans h1.1, h2.2.1.trans h1.2.1, h2.2.2.1.trans h1.2.2.1,
      h2.2.2.2.1.trans h1.2.2.2.1, h2.2.2.2.2.trans h1.2.2.2.2.1⟩

theorem chunksApply_prose (mp : String → String) (cs : List String) (h : cs ≠ []) :
    ∀ (buf : String) (m : MessageElem),
    (chunksApply mp cs buf m).proseHtml = mp (buf ++ concatChunks cs) := by
  induction cs with
  | nil => exact absurd rfl h
  | cons c cs ih =>
    intro buf m
    cases cs with
    | nil =>
      have h1 := (chunkApply_fields mp (buf ++ c) m).2.2.2.2.2
      simp only [chunksApply, concatChunks, string_append_nil, h1]
    | cons d ds =>
      have hstep : chunksApply mp (c :: d :: ds) buf m =
          chunksApply mp (d :: ds) (buf ++ c) (chunkApply mp (buf ++ c) m) := rfl
      rw [hstep, ih (by simp) (buf ++ c) (chunkApply mp (buf ++ c) m),
        string_append_assoc]
      rfl

theorem scrollToBottom_projs (st : ClientState) :
    (scrollToBottom st).1.messages = st.messages ∧
    (scrollToBottom st).1.currentAssistantMessage = st.currentAssistantMessage ∧
    (scrollToBottom st).1.currentConversationId = st.currentConversationId := by
  simp [scrollToBottom]

theorem updAt_congr {α : Type} (l : List α) (i : Nat) {f g : α → α}
    (h : ∀ a, f a = g a) : updAt l i f = updAt l i g := by
  rw [funext h]

theorem uamAt_messages (mp : String → String) (c : String) (i : Nat) (st : ClientState) :
    (updateAssistantMessageAt mp c i st).1.messages =
      updAt st.messages i (chunkApply mp c) := by
  have hfun : ∀ (l : List MessageElem),
      updAt (updAt l i (fun m => { m with proseHtml := mp c })) i
        (fun m => if m.hasEditBtn = true then
            { m with editBinding := (IdSrc.liveDataset, EditContentSrc.captured c) }
          else m) = updAt l i (chunkApply mp c) := by
    intro l
    rw [updAt_updAt]
    exact updAt_congr _ _ (fun a => by cases hE : a.hasEditBtn <;> simp [chunkApply, hE])
  simp only [updateAssistantMessageAt, scrollToBottom]
  split <;> split <;> simpa using hfun st.messages

theorem uamAt_projs (mp : String → String) (c : String) (i : Nat) (st : ClientState) :
    (updateAssistantMessageAt mp c i st).1.currentAssistantMessage =
      st.currentAssistantMessage ∧
    (updateAssistantMessageAt mp c i st).1.currentConversationId =
      st.currentConversationId := by
  simp only [updateAssistantMessageAt, scrollToBottom]
  split <;> split <;> simp

theorem uam_none_eq (mp : String → String) (c : String) (st : ClientState) (i : Nat)
    (h : st.currentAssistantMessage = some i) :
    updateAssistantMessage mp c none st = updateAssistantMessageAt mp c i st := by
  simp [updateAssistantMessage, resolveCurrent, h]

theorem chunkApply_role (mp : String → String) (b : String) :
    ∀ m : MessageElem, ((chunkApply mp b m).role == "assistant") = (m.role == "assistant") := by
  intro m
  rw [(chunkApply_fields mp b m).1]

theorem runChunks_spec (mp : String → String) (cs : List String) :
    ∀ (buf : String) (st : ClientState) (i : Nat) (lm : MessageElem),
    st.currentAssistantMessage = some i →
    i + 1 = st.messages.length →
    st.messages.getLast? = some lm →
    (runChunks mp cs buf st).1 = buf ++ concatChunks cs ∧
    (runChunks mp cs buf st).2.currentAssistantMessage = some i ∧
    (runChunks mp cs buf st).2.messages.length = st.messages.length ∧
    (runChunks mp cs buf st).2.currentConversationId = st.currentConversationId ∧
    assistantCount (runChunks mp cs buf st).2.messages = assistantCount st.messages ∧
    (runChunks mp cs buf st).2.messages.getLast? = some (chunksApply mp cs buf lm) := by
  induction cs with
  | nil =>
    intro buf st i lm h1 h2 h3
    refine ⟨?_, h1, rfl, rfl, rfl, ?_⟩
    · simp [runChunks, concatChunks, string_append_nil]
    · simpa [runChunks, chunksApply] using h3
  | cons c cs ih =>
    intro buf st i lm h1 h2 h3
    have hmsgs : (updateAssistantMessage mp (buf ++ c) none st).1.messages =
        updLast (chunkApply mp (buf ++ c)) st.messages := by
      rw [uam_none_eq mp (buf ++ c) st i h1, uamAt_messages,
        updAt_last_eq_updLast st.messages _ i h2]
    have hprojs := uamAt_projs mp (buf ++ c) i st
    set st1 := (updateAssistantMessage mp (buf ++ c) none st).1 with hst1
    have h1' : st1.currentAssistantMessage = some i := by
      rw [hst1, uam_none_eq mp (buf ++ c) st i h1, hprojs.1, h1]
    have hlen1 : st1.messages.length = st.messages.length := by
      rw [hmsgs, updLast_length]
    have h2' : i + 1 = st1.messages.length := by rw [hlen1]; exact h2
    have h3' : st1.messages.getLast? = some (chunkApply mp (buf ++ c) lm) := by
      rw [hmsgs, updLast_getLast?, h3]; rfl
    have hconv1 : st1.currentConversationId = st.currentConversationId := by
      rw [hst1, uam_none_eq mp (buf ++ c) st i h1, hprojs.2]
    have hcount1 : assistantCount st1.messages = assistantCount st.messages := by
      rw [hmsgs]
      exact countP_updLast _ _ _ (chunkApply_role mp (buf ++ c))
    have hrec := ih (buf ++ c) st1 i (chunkApply mp (buf ++ c) lm) h1' h2' h3'
    have hrun : runChunks mp (c :: cs) buf st = runChunks mp cs (buf ++ c) st1 := rfl
    rw [hrun]
    refine ⟨?_, hrec.2.1, ?_, ?_, ?_, ?_⟩
    · rw [hrec.1, string_append_assoc]; rfl
    · rw [hrec.2.2.1, hlen1]
    · rw [hrec.2.2.2.1, hconv1]
    · rw [hrec.2.2.2.2.1, hcount1]
    · exact hrec.2.2.2.2.2

theorem bindDurableId_spec (mid : Option String) (m : MessageElem) :
    (bindDurableId mid m).messageId = mid ∧
    (bindDurableId mid m).proseHtml = m.proseHtml ∧
    (bindDurableId mid m).role = m.role ∧
    (m.hasRegenBtn = true → (bindDurableId mid m).regenBinding = mid) ∧
    (m.hasEditBtn = true →
      (bindDurableId mid m).editBinding = (IdSrc.captured mid, EditContentSrc.liveProse)) := by
  cases hR : m.hasRegenBtn <;> cases hE : m.hasEditBtn <;>
    simp [bindDurableId, hR, hE]

theorem bindDurableId_role (mid : Option String) :
    ∀ m : MessageElem, ((bindDurableId mid m).role == "assistant") = (m.role == "assistant") := by
  intro m
  rw [(bindDurableId_spec mid m).2.2.1]

theorem handleWS_bind (mp : String → String) (e : WSEvent) (st : ClientState)
    (mid : String)
    (hty : e.type = "message_added")
    (hcv : st.currentConversationId = some e.conversation_id)
    (hmid : e.message_id = some mid) (hne : mid ≠ "")
    (lm : MessageElem) (hlast : st.messages.getLast? = some lm)
    (hno : jsTruthy lm.messageId = false) :
    handleWebSocketMessage mp e st =
      ({ st with messages := updLast (bindDurableId (some mid)) st.messages },
       [Effect.loadConversations]) := by
  unfold handleWebSocketMessage
  rw [if_pos (Or.inr (Or.inr hty)), if_pos ⟨hty, hcv⟩]
  split
  · rename_i lmv heq
    rw [hlast] at heq
    injection heq with heq'
    subst heq'
    rw [if_pos ⟨hno, by simp [jsTruthy, hmid, hne]⟩, hmid]
  · rename_i heq
    rw [hlast] at heq
    exact absurd heq (by simp)

theorem handleWS_already_bound (mp : String → String) (e : WSEvent) (st : ClientState)
    (hty : e.type = "message_added")
    (hcv : st.currentConversationId = some e.conversation_id)
    (lm : MessageElem) (hlast : st.messages.getLast? = some lm)
    (hyes : jsTruthy lm.messageId = true) :
    handleWebSocketMessage mp e st = (st, [Effect.loadConversations]) := by
  unfold handleWebSocketMessage
  rw [if_pos (Or.inr (Or.inr hty)), if_pos ⟨hty, hcv⟩]
  split
  · rename_i lmv heq
    rw [hlast] at heq
    injection heq with heq'
    subst heq'
    rw [if_neg (fun hc => by rw [hyes] at hc; exact absurd hc.1 (by decide))]
  · rfl

end Lemmas

/-- Sample scroll geometry with everything at zero. -/
def sampleGeom : ScrollGeom := { scrollTop := 0, scrollHeight := 0, clientHeight := 0 }

/-- A pristine client state used to instantiate the theorems. -/
def emptyClient : ClientState :=
  { currentConversationId := none, messages := [], convList := [],
    currentAssistantMessage := none, isScrolledManually := false,
    jumpBtnVisible := false, geom := sampleGeom, abortControllerActive := false,
    sendButtonDisabled := false, stopButtonHidden := true, inputText := "",
    selectedFiles := [], filePreviewHidden := true }

/-- A message_added event for conversation c7 carrying message id m42. -/
def sampleEvent : WSEvent :=
  { type := "message_added", conversation_id := "c7", message_id := some "m42",
    role := some "assistant", content := some "Hi there!", summary := none }

/-- C8: a message_added event for a conversation other than the displayed
one (including conversations not tracked locally) only refreshes the
conversation list; the client state, in particular the message pane and
every rendered message element, is left unchanged. -/
theorem c8_other_conversation_only_list_refresh (mp : String → String) (e : WSEvent)
    (st : ClientState)
    (hty : e.type = "message_added")
    (hcv : st.currentConversationId ≠ some e.conversation_id) :
    handleWebSocketMessage mp e st = (st, [Effect.loadConversations]) := by
  unfold handleWebSocketMessage
  rw [if_pos (Or.inr (Or.inr hty)), if_neg (fun hc => hcv hc.2),
    if_neg (fun hc => by rw [hty] at hc; exact absurd hc.1 (by decide))]

/-- C8 witness: a concrete mismatching event leaves the state untouched
and issues exactly the conversation-list refresh. -/
theorem c8_witness :
    ({ emptyClient with currentConversationId := some "other" } : ClientState).currentConversationId ≠
      some sampleEvent.conversation_id ∧
    handleWebSocketMessage id sampleEvent
        { emptyClient with currentConversationId := some "other" } =
      ({ emptyClient with currentConversationId := some "other" }, [Effect.loadConversations]) :=
  ⟨by decide,
   c8_other_conversation_only_list_refresh id sampleEvent
     { emptyClient with currentConversationId := some "other" } rfl (by decide)⟩

/-- C10: an event whose type is none of the five handled kinds leaves the
dispatcher as the identity: no effect is issued (no fetch, no scheduled
work, nothing user-visible) and the client state is unchanged. -/
theorem c10_unknown_event_no_effect (mp : String → String) (e : WSEvent)
    (st : ClientState)
    (h1 : e.type ≠ "conversation_created") (h2 : e.type ≠ "conversation_deleted")
    (h3 : e.type ≠ "message_added") (h4 : e.type ≠ "message_edited")
    (h5 : e.type ≠ "summary_updated") :
    handleWebSocketMessage mp e st = (st, []) := by
  unfold handleWebSocketMessage
  rw [if_neg (by rintro (h | h | h) <;> [exact h1 h; exact h2 h; exact h3 h]),
    if_neg h4, if_neg h5]

/-- C10 witness: a concrete unknown event type is a complete no-op. -/
theorem c10_witness :
    ({ sampleEvent with type := "ping" } : WSEvent).type ≠ "message_added" ∧
    handleWebSocketMessage id { sampleEvent with type := "ping" } emptyClient =
      (emptyClient, []) :=
  ⟨by decide,
   c10_unknown_event_no_effect id { sampleEvent with type := "ping" } emptyClient
     (by decide) (by decide) (by decide) (by decide) (by decide)⟩

/-- C3: attaching a durable identifier is idempotent: once a matching
message_added event has bound its id to the last rendered element, a
second identical event leaves identifier, content and affordance bindings
(indeed the whole client state) exactly as after the first, producing
only the conversation-list refresh again. -/
theorem c3_attach_durable_id_idempotent (mp : String → String) (e : WSEvent)
    (st : ClientState) (mid : String) (lm : MessageElem)
    (hty : e.type = "message_added")
    (hcv : st.currentConversationId = some e.conversation_id)
    (hmid : e.message_id = some mid) (hne : mid ≠ "")
    (hlast : st.messages.getLast? = some lm)
    (hno : jsTruthy lm.messageId = false) :
    handleWebSocketMessage mp e (handleWebSocketMessage mp e st).1 =
      ((handleWebSocketMessage mp e st).1, [Effect.loadConversations]) := by
  rw [handleWS_bind mp e st mid hty hcv hmid hne lm hlast hno]
  exact handleWS_already_bound mp e _ hty (by simpa using hcv)
    (bindDurableId (some mid) lm)
    (by rw [show ({ st with messages := updLast (bindDurableId (some mid)) st.messages } :
          ClientState).messages = updLast (bindDurableId (some mid)) st.messages from rfl,
        updLast_getLast?, hlast]; rfl)
    (by rw [(bindDurableId_spec (some mid) lm).1]; simp [jsTruthy, hne])

/-- A client displaying conversation c7 with a single streaming
placeholder rendered. -/
def c3State : ClientState :=
  { emptyClient with
    currentConversationId := some "c7",
    messages := [assistantPlaceholder] }

/-- C3 witness: a concrete double delivery of the same message_added
event ends in the same state as a single delivery. -/
theorem c3_witness :
    jsTruthy (assistantPlaceholder.messageId) = false ∧
    handleWebSocketMessage id sampleEvent
        (handleWebSocketMessage id sampleEvent c3State).1 =
      ((handleWebSocketMessage id sampleEvent c3State).1, [Effect.loadConversations]) :=
  ⟨by decide,
   c3_attach_durable_id_idempotent id sampleEvent c3State
     "m42" assistantPlaceholder rfl rfl rfl (by decide) rfl (by decide)⟩

section StreamLemmas

theorem exists_getLast? {α : Type} : ∀ (l : List α), l ≠ [] → ∃ a, l.getLast? = some a := by
  intro l
  induction l with
  | nil => intro h; exact absurd rfl h
  | cons a m ih =>
    intro _
    cases m with
    | nil => exact ⟨a, rfl⟩
    | cons b k =>
      obtain ⟨x, hx⟩ := ih (by simp)
      exact ⟨x, by rw [List.getLast?_cons_cons]; exact hx⟩

theorem concatChunks_append (l1 l2 : List String) :
    concatChunks (l1 ++ l2) = concatChunks l1 ++ concatChunks l2 := by
  induction l1 with
  | nil => simp only [List.nil_append, concatChunks, string_nil_append]
  | cons c cs ih =>
    show c ++ concatChunks (cs ++ l2) = (c ++ concatChunks cs) ++ concatChunks l2
    rw [ih, string_append_assoc]

theorem bindDurableId_eq_of_buttons (mid : Option String) (m : MessageElem)
    (hR : m.hasRegenBtn = true) (hE : m.hasEditBtn = true) :
    bindDurableId mid m =
      { m with
        messageId := mid,
        regenBinding := mid,
        editBinding := (IdSrc.captured mid, EditContentSrc.liveProse) } := by
  simp [bindDurableId, hR, hE]

theorem beginStream_spec (cid : String) (st0 : ClientState) (cv : String)
    (hin : jsTrim st0.inputText ≠ "")
    (hcv : st0.currentConversationId = some cv) :
    (beginStream cid st0).1.messages =
      clearEmptyState st0.messages ++
        [userElemOf (jsTrim st0.inputText), assistantPlaceholder] ∧
    (beginStream cid st0).1.currentAssistantMessage =
      some ((clearEmptyState st0.messages).length + 1) ∧
    (beginStream cid st0).1.currentConversationId = some cv := by
  have hng : ¬(jsTrim st0.inputText = "" ∧ st0.selectedFiles = []) := fun hc => hin hc.1
  have hue : ((userElemOf (jsTrim st0.inputText)).role == "empty") = false := by
    simp [userElemOf]
  have hclear := clearEmptyState_append_user st0.messages (userElemOf (jsTrim st0.inputText)) hue
  simp only [beginStream, appendUserMessage, createAssistantMessageEl, scrollToBottom,
    if_neg hng, hcv]
  refine ⟨?_, ?_, trivial⟩
  · simp only [userElemOf, assistantPlaceholder, jsTruthy, typingIndicatorHtml] at hclear ⊢
    simp [hclear, List.append_assoc]
  · simp only [userElemOf, assistantPlaceholder, jsTruthy, typingIndicatorHtml] at hclear ⊢
    simp [hclear]

end StreamLemmas

/-- A client mid-session: one streaming placeholder rendered as the only
(and last) message, recorded as the current assistant message. -/
def c2State : ClientState :=
  { emptyClient with
    messages := [assistantPlaceholder],
    currentAssistantMessage := some 0 }

/-- C2: for every chunk sequence c1..cn delivered to an active streaming
session, the final buffer is the concatenation c1 ++ ... ++ cn and the
rendered content of the placeholder equals the render of that whole
concatenation; moreover each single chunk step re-renders the full
accumulated buffer (not a diff) into the placeholder. -/
theorem c2_full_buffer_rerender
    (mp : String → String) (chunks : List String) (st : ClientState) (i : Nat)
    (hne : chunks ≠ [])
    (hcur : st.currentAssistantMessage = some i)
    (hlen : i + 1 = st.messages.length) :
    ((runChunks mp chunks "" st).1 = concatChunks chunks ∧
     (∃ fin, (runChunks mp chunks "" st).2.messages.getLast? = some fin ∧
        fin.proseHtml = mp (concatChunks chunks))) ∧
    (∀ (b : String) (st' : ClientState) (j : Nat),
      st'.currentAssistantMessage = some j → j + 1 = st'.messages.length →
      ∃ m', (updateAssistantMessage mp b none st').1.messages.getLast? = some m' ∧
        m'.proseHtml = mp b) := by
  constructor
  · obtain ⟨lm, hlm⟩ := exists_getLast? st.messages
      (by intro hnil; rw [hnil] at hlen; simp at hlen)
    have hs := runChunks_spec mp chunks "" st i lm hcur hlen hlm
    refine ⟨by rw [hs.1, string_nil_append],
      ⟨chunksApply mp chunks "" lm, hs.2.2.2.2.2, ?_⟩⟩
    rw [chunksApply_prose mp chunks hne "" lm, string_nil_append]
  · intro b st' j hcur' hlen'
    obtain ⟨lm', hlm'⟩ := exists_getLast? st'.messages
      (by intro hnil; rw [hnil] at hlen'; simp at hlen')
    refine ⟨chunkApply mp b lm', ?_, (chunkApply_fields mp b lm').2.2.2.2.2⟩
    rw [uam_none_eq mp b st' j hcur', uamAt_messages,
      updAt_last_eq_updLast st'.messages _ j hlen', updLast_getLast?, hlm']
    rfl

/-- C2 witness: the three-chunk stream Hi, there, ! renders as the parse
of the full concatenation. -/
theorem c2_witness :
    (["Hi", " there", "!"] : List String) ≠ [] ∧
    (((runChunks id ["Hi", " there", "!"] "" c2State).1 =
        concatChunks ["Hi", " there", "!"] ∧
      (∃ fin, (runChunks id ["Hi", " there", "!"] "" c2State).2.messages.getLast? = some fin ∧
        fin.proseHtml = id (concatChunks ["Hi", " there", "!"]))) ∧
     (∀ (b : String) (st' : ClientState) (j : Nat),
       st'.currentAssistantMessage = some j → j + 1 = st'.messages.length →
       ∃ m', (updateAssistantMessage id b none st').1.messages.getLast? = some m' ∧
         m'.proseHtml = id b)) :=
  ⟨by decide, c2_full_buffer_rerender id ["Hi", " there", "!"] c2State 0 (by decide) rfl rfl⟩

/-- C1: starting from a displayed conversation with no assistant bubble,
a submission streams chunks pre ++ post; a message_added event for the
same conversation carrying id mid arrives between the two chunk runs.
The handler binds mid to the last rendered element and rebinds the
regenerate and edit affordances to mid while leaving its rendered prose
untouched, and the final state holds exactly one assistant message whose
content is the render of the full concatenation and whose identifier is
mid. -/
theorem c1_bind_durable_id_without_rerender
    (mp : String → String) (newConvId : String) (st0 : ClientState) (e : WSEvent)
    (pre post : List String) (mid : String)
    (hin : jsTrim st0.inputText ≠ "")
    (hcv : st0.currentConversationId = some e.conversation_id)
    (hty : e.type = "message_added")
    (hmid : e.message_id = some mid)
    (hne : mid ≠ "")
    (hcount : assistantCount st0.messages = 0)
    (hchunks : pre ++ post ≠ []) :
    (∃ lm, (runChunks mp pre "" (beginStream newConvId st0).1).2.messages.getLast? = some lm ∧
      jsTruthy lm.messageId = false ∧
      lm.proseHtml =
        (if pre = [] then typingIndicatorHtml else mp (concatChunks pre)) ∧
      (handleWebSocketMessage mp e
          (runChunks mp pre "" (beginStream newConvId st0).1).2).1.messages.getLast? =
        some { lm with
          messageId := some mid,
          regenBinding := some mid,
          editBinding := (IdSrc.captured (some mid), EditContentSrc.liveProse) }) ∧
    (∃ fin,
      (runChunks mp post (runChunks mp pre "" (beginStream newConvId st0).1).1
          (handleWebSocketMessage mp e
            (runChunks mp pre "" (beginStream newConvId st0).1).2).1).2.messages.getLast? =
        some fin ∧
      fin.role = "assistant" ∧
      fin.messageId = some mid ∧
      fin.regenBinding = some mid ∧
      fin.proseHtml = mp (concatChunks (pre ++ post))) ∧
    assistantCount
      (runChunks mp post (runChunks mp pre "" (beginStream newConvId st0).1).1
        (handleWebSocketMessage mp e
          (runChunks mp pre "" (beginStream newConvId st0).1).2).1).2.messages = 1 := by
  have hbs := beginStream_spec newConvId st0 e.conversation_id hin hcv
  have h1cur : (beginStream newConvId st0).1.currentAssistantMessage =
      some ((clearEmptyState st0.messages).length + 1) := hbs.2.1
  have h1len : (clearEmptyState st0.messages).length + 1 + 1 =
      (beginStream newConvId st0).1.messages.length := by
    rw [hbs.1]; simp
  have h1last : (beginStream newConvId st0).1.messages.getLast? =
      some assistantPlaceholder := by
    rw [hbs.1,
      show clearEmptyState st0.messages ++
          [userElemOf (jsTrim st0.inputText), assistantPlaceholder] =
        (clearEmptyState st0.messages ++ [userElemOf (jsTrim st0.inputText)]) ++
          [assistantPlaceholder] by simp,
      List.getLast?_concat]
  have hbase : assistantCount (clearEmptyState st0.messages) = 0 := by
    unfold clearEmptyState
    split
    · rfl
    · exact hcount
  have h1cnt : assistantCount (beginStream newConvId st0).1.messages = 1 := by
    rw [hbs.1, assistantCount, List.countP_append]
    rw [assistantCount] at hbase
    rw [hbase]
    simp [userElemOf, assistantPlaceholder, List.countP_cons]
  have hrc1 := runChunks_spec mp pre "" (beginStream newConvId st0).1
    ((clearEmptyState st0.messages).length + 1) assistantPlaceholder h1cur h1len h1last
  have h2last := hrc1.2.2.2.2.2
  set lm2 := chunksApply mp pre "" assistantPlaceholder with hlm2
  have hlm2f := chunksApply_fields mp pre ""
  have hno : jsTruthy lm2.messageId = false := by
    rw [hlm2, (hlm2f assistantPlaceholder).2.1]; rfl
  have h2conv : (runChunks mp pre "" (beginStream newConvId st0).1).2.currentConversationId =
      some e.conversation_id := by rw [hrc1.2.2.2.1, hbs.2.2]
  have hbind := handleWS_bind mp e (runChunks mp pre "" (beginStream newConvId st0).1).2
    mid hty h2conv hmid hne lm2 h2last hno
  have hRlm2 : lm2.hasRegenBtn = true := by
    rw [hlm2, (hlm2f assistantPlaceholder).2.2.1]; rfl
  have hElm2 : lm2.hasEditBtn = true := by
    rw [hlm2, (hlm2f assistantPlaceholder).2.2.2.1]; rfl
  have h3msgs : (handleWebSocketMessage mp e
      (runChunks mp pre "" (beginStream newConvId st0).1).2).1.messages =
      updLast (bindDurableId (some mid))
        (runChunks mp pre "" (beginStream newConvId st0).1).2.messages := by
    rw [hbind]
  have h3last : (handleWebSocketMessage mp e
      (runChunks mp pre "" (beginStream newConvId st0).1).2).1.messages.getLast? =
      some (bindDurableId (some mid) lm2) := by
    rw [h3msgs, updLast_getLast?, h2last]; rfl
  have h3bound : bindDurableId (some mid) lm2 =
      { lm2 with
        messageId := some mid,
        regenBinding := some mid,
        editBinding := (IdSrc.captured (some mid), EditContentSrc.liveProse) } :=
    bindDurableId_eq_of_buttons (some mid) lm2 hRlm2 hElm2
  refine ⟨⟨lm2, h2last, hno, ?_, by rw [h3last, h3bound]⟩, ?_⟩
  · cases hpre : pre with
    | nil => rw [hlm2, hpre]; rfl
    | cons p ps =>
      rw [if_neg (by simp [hpre]), hlm2,
        chunksApply_prose mp pre (by simp [hpre]) "" assistantPlaceholder,
        string_nil_append, hpre]
  · have h3cur : (handleWebSocketMessage mp e
        (runChunks mp pre "" (beginStream newConvId st0).1).2).1.currentAssistantMessage =
        some ((clearEmptyState st0.messages).length + 1) := by
      rw [hbind]
      exact hrc1.2.1
    have h3len : (clearEmptyState st0.messages).length + 1 + 1 =
        (handleWebSocketMessage mp e
          (runChunks mp pre "" (beginStream newConvId st0).1).2).1.messages.length := by
      rw [h3msgs, updLast_length, hrc1.2.2.1]
      exact h1len
    have hrc2 := runChunks_spec mp post
      (runChunks mp pre "" (beginStream newConvId st0).1).1
      (handleWebSocketMessage mp e (runChunks mp pre "" (beginStream newConvId st0).1).2).1
      ((clearEmptyState st0.messages).length + 1) (bindDurableId (some mid) lm2)
      h3cur h3len h3last
    have hbuf : (runChunks mp pre "" (beginStream newConvId st0).1).1 = concatChunks pre := by
      rw [hrc1.1, string_nil_append]
    set fin := chunksApply mp post (runChunks mp pre "" (beginStream newConvId st0).1).1
      (bindDurableId (some mid) lm2) with hfin
    have hfinf := chunksApply_fields mp post
      (runChunks mp pre "" (beginStream newConvId st0).1).1 (bindDurableId (some mid) lm2)
    have hbindf := bindDurableId_spec (some mid) lm2
    refine ⟨⟨fin, hrc2.2.2.2.2.2, ?_, ?_, ?_, ?_⟩, ?_⟩
    · rw [hfin, hfinf.1, hbindf.2.2.1, hlm2, (hlm2f assistantPlaceholder).1]; rfl
    · rw [hfin, hfinf.2.1, hbindf.1]
    · rw [hfin, hfinf.2.2.2.2, hbindf.2.2.2.1 hRlm2]
    · cases hpost : post with
      | nil =>
        rw [hfin, hpost]
        show (bindDurableId (some mid) lm2).proseHtml = mp (concatChunks (pre ++ []))
        rw [hbindf.2.1, hlm2,
          chunksApply_prose mp pre (by
            intro hnil
            rw [hnil, hpost] at hchunks
            exact hchunks rfl) "" assistantPlaceholder,
          string_nil_append, List.append_nil]
      | cons q qs =>
        rw [hfin, chunksApply_prose mp post (by simp [hpost])
          (runChunks mp pre "" (beginStream newConvId st0).1).1 (bindDurableId (some mid) lm2),
          hbuf, ← concatChunks_append, hpost]
    · have hcnt2 : assistantCount
          (runChunks mp pre "" (beginStream newConvId st0).1).2.messages = 1 := by
        rw [hrc1.2.2.2.2.1, h1cnt]
      rw [hrc2.2.2.2.2.1, h3msgs, assistantCount,
        countP_updLast _ _ _ (bindDurableId_role (some mid))]
      rw [assistantCount] at hcnt2
      exact hcnt2

/-- A client displaying conversation c7 with the prompt hello typed and
nothing rendered yet. -/
def c1State : ClientState :=
  { emptyClient with
    currentConversationId := some "c7",
    inputText := "hello" }

/-- C1 witness: the scenario of the specification: the user sends hello,
the stream delivers Hi and there, the message_added event for the same
conversation with id m42 arrives, the stream then delivers the bang; the
final state is one assistant message rendering the whole concatenation
with identifier m42. -/
theorem c1_witness :
    jsTrim c1State.inputText ≠ "" ∧
    ((∃ lm, (runChunks id ["Hi", " there"] ""
          (beginStream "nc" c1State).1).2.messages.getLast? = some lm ∧
      jsTruthy lm.messageId = false ∧
      lm.proseHtml =
        (if (["Hi", " there"] : List String) = [] then typingIndicatorHtml
         else id (concatChunks ["Hi", " there"])) ∧
      (handleWebSocketMessage id sampleEvent
          (runChunks id ["Hi", " there"] ""
            (beginStream "nc" c1State).1).2).1.messages.getLast? =
        some { lm with
          messageId := some "m42",
          regenBinding := some "m42",
          editBinding := (IdSrc.captured (some "m42"), EditContentSrc.liveProse) }) ∧
    (∃ fin,
      (runChunks id ["!"] (runChunks id ["Hi", " there"] ""
            (beginStream "nc" c1State).1).1
          (handleWebSocketMessage id sampleEvent
            (runChunks id ["Hi", " there"] ""
              (beginStream "nc" c1State).1).2).1).2.messages.getLast? =
        some fin ∧
      fin.role = "assistant" ∧
      fin.messageId = some "m42" ∧
      fin.regenBinding = some "m42" ∧
      fin.proseHtml = id (concatChunks (["Hi", " there"] ++ ["!"]))) ∧
    assistantCount
      (runChunks id ["!"] (runChunks id ["Hi", " there"] ""
          (beginStream "nc" c1State).1).1
        (handleWebSocketMessage id sampleEvent
          (runChunks id ["Hi", " there"] ""
            (beginStream "nc" c1State).1).2).1).2.messages = 1) :=
  ⟨by decide,
   c1_bind_durable_id_without_rerender id "nc" c1State sampleEvent
     ["Hi", " there"] ["!"] "m42" (by decide) (by decide) (by decide) (by decide)
     (by decide) (by decide) (by decide)⟩

/-- C5: a streaming failure named AbortError (user cancellation) produces
no user-visible effect and the submit control ends re-enabled; any other
failure surfaces exactly one error modal that carries a close button
(dismissible); and for every outcome the rendered messages (any partial
output) are untouched, the abort controller is released and the session
reference cleared. -/
theorem c5_stream_error_handling (st : ClientState) (e : JsError) :
    ((onStreamError (some { name := "AbortError", message := e.message }) st).2.filter
        userVisibleEffect = [] ∧
     (onStreamError (some { name := "AbortError", message := e.message }) st).1.sendButtonDisabled =
        false) ∧
    (e.name ≠ "AbortError" →
      (onStreamError (some e) st).2.filter userVisibleEffect =
        [Effect.showModalE "Error" ("Something went wrong: " ++ e.message) "error" true] ∧
      (onStreamError (some e) st).1.sendButtonDisabled = false) ∧
    (∀ err : Option JsError,
      (onStreamError err st).1.messages = st.messages ∧
      (onStreamError err st).1.abortControllerActive = false ∧
      (onStreamError err st).1.currentAssistantMessage = none) := by
  refine ⟨⟨?_, ?_⟩, ?_, ?_⟩
  · simp [onStreamError, streamCatch, streamFinally]
  · simp [onStreamError, streamCatch, streamFinally]
  · intro hne
    constructor
    · simp [onStreamError, streamCatch, streamFinally, hne, showModalCall, userVisibleEffect]
    · simp [onStreamError, streamCatch, streamFinally, hne]
  · intro err
    cases err with
    | none => simp [onStreamError, streamCatch, streamFinally]
    | some e2 =>
      by_cases h : e2.name = "AbortError" <;>
        simp [onStreamError, streamCatch, streamFinally, h]

/-- C5 witness: a concrete TypeError surfaces exactly one dismissible
error modal, re-enables submission and keeps the partial output. -/
theorem c5_witness :
    ("TypeError" : String) ≠ "AbortError" ∧
    ((onStreamError (some { name := "TypeError", message := "boom" }) c2State).2.filter
        userVisibleEffect =
      [Effect.showModalE "Error" ("Something went wrong: " ++ "boom") "error" true] ∧
     (onStreamError (some { name := "TypeError", message := "boom" }) c2State).1.sendButtonDisabled =
        false) ∧
    (onStreamError (some { name := "TypeError", message := "boom" }) c2State).1.messages =
      c2State.messages :=
  ⟨by decide,
   (c5_stream_error_handling c2State { name := "TypeError", message := "boom" }).2.1
     (by decide),
   ((c5_stream_error_handling c2State { name := "TypeError", message := "boom" }).2.2
     (some { name := "TypeError", message := "boom" })).1⟩

/-- The failing interleaving for the submission lock: submit a, receive
one chunk of loop 0, press Enter with b typed while loop 0 streams,
then one chunk each of loop 1 and loop 0. -/
def c4Trace : List UiEv :=
  [UiEv.pressEnter "a", UiEv.chunk 0 "x", UiEv.pressEnter "b",
   UiEv.chunk 1 "h", UiEv.chunk 0 "y"]

/-- Initial state for the failing trace: conversation c1 displayed,
nothing streaming. -/
def c4Init : AppState :=
  { client := { emptyClient with currentConversationId := some "c1" },
    loops := [], writes := [] }

/-- C4: the submission lock fails on the code. After the first submit the
send button is disabled, but the Enter keydown handler calls
chatForm.requestSubmit, which fires the submit handler regardless of the
disabled button, starting a second streaming loop; the first loop's next
chunk update then resolves the CURRENT placeholder — the second loop's
element (index 3) — so two distinct loops write into the same assistant
placeholder. -/
theorem c4_two_loops_write_same_placeholder :
    (runTrace id (List.take 2 c4Trace) c4Init).client.sendButtonDisabled = true ∧
    (0, 3) ∈ (runTrace id c4Trace c4Init).writes ∧
    (1, 3) ∈ (runTrace id c4Trace c4Init).writes := by decide

/-- C6 counterexample: with the channel OPEN (handle id 0), invoking
connect is not a no-op: the handle changes and a second connection is
created. -/
theorem c6_counterexample :
    ¬ (connectWebSocket { ws := some { id := 0, readyState := 1 }, nextConnId := 1 } =
       ({ ws := some { id := 0, readyState := 1 }, nextConnId := 1 }, [])) := by decide

/-- C6 amended: connectWebSocket itself is never idempotent: every call,
also while Connecting or Open, constructs a fresh connection and
overwrites the handle. The only guard sits at the visibility-change call
site, which skips connecting exactly when the handle exists and is Open;
while merely Connecting, the visibility handler still creates a second
connection. -/
theorem c6_amended_connect_not_idempotent (s : WSClient) (c : WSConn) :
    (connectWebSocket s =
      ({ ws := some { id := s.nextConnId, readyState := 0 }, nextConnId := s.nextConnId + 1 },
       [Effect.createConnection s.nextConnId])) ∧
    (s.ws = some c → c.readyState = 1 →
      handleVisibilityChange false s = (s, [Effect.loadConversations])) ∧
    (s.ws = some c → c.readyState = 0 →
      (handleVisibilityChange false s).1.ws = some { id := s.nextConnId, readyState := 0 }) := by
  refine ⟨rfl, ?_, ?_⟩
  · intro hws hrs
    simp [handleVisibilityChange, hws, hrs]
  · intro hws hrs
    simp [handleVisibilityChange, hws, hrs, connectWebSocket]

/-- C6 amended witness: an Open handle is kept by the visibility handler,
a Connecting one is replaced by a brand-new connection. -/
theorem c6_amended_witness :
    handleVisibilityChange false { ws := some { id := 0, readyState := 1 }, nextConnId := 1 } =
      ({ ws := some { id := 0, readyState := 1 }, nextConnId := 1 },
       [Effect.loadConversations]) ∧
    (handleVisibilityChange false
        { ws := some { id := 5, readyState := 0 }, nextConnId := 6 }).1.ws =
      some { id := 6, readyState := 0 } :=
  ⟨(c6_amended_connect_not_idempotent
      { ws := some { id := 0, readyState := 1 }, nextConnId := 1 }
      { id := 0, readyState := 1 }).2.1 rfl rfl,
   (c6_amended_connect_not_idempotent
      { ws := some { id := 5, readyState := 0 }, nextConnId := 6 }
      { id := 5, readyState := 0 }).2.2 rfl rfl⟩

/-- C7: over any number n of drop-and-retry rounds, every close schedules
exactly one reconnect at the fixed 3000ms delay (n schedules for n
closes, indefinitely), no user-visible effect is ever produced, and a
connection handle exists again after each round. -/
theorem c7_reconnect_every_close (n : Nat) (s : WSClient) (h : s.ws.isSome = true) :
    ((wsRounds n s).2.filter isReconnectSchedule).length = n ∧
    (wsRounds n s).2.filter userVisibleEffect = [] ∧
    (wsRounds n s).1.ws.isSome = true := by
  induction n generalizing s with
  | zero => exact ⟨rfl, rfl, h⟩
  | succ n ih =>
    obtain ⟨c, hc⟩ := Option.isSome_iff_exists.mp h
    have h1 : (wsRound s).1.ws.isSome = true := by
      simp [wsRound, wsErrorEvent, wsCloseEvent, connectWebSocket, hc]
    have hsch : ((wsRound s).2.filter isReconnectSchedule).length = 1 := by
      simp [wsRound, wsErrorEvent, wsCloseEvent, connectWebSocket, hc,
        isReconnectSchedule, userVisibleEffect]
    have hvis : (wsRound s).2.filter userVisibleEffect = [] := by
      simp [wsRound, wsErrorEvent, wsCloseEvent, connectWebSocket, hc,
        isReconnectSchedule, userVisibleEffect]
    have ihs := ih (wsRound s).1 h1
    refine ⟨?_, ?_, ?_⟩
    · show (((wsRound s).2 ++ (wsRounds n (wsRound s).1).2).filter
        isReconnectSchedule).length = n + 1
      rw [List.filter_append, List.length_append, hsch, ihs.1]
      omega
    · show ((wsRound s).2 ++ (wsRounds n (wsRound s).1).2).filter userVisibleEffect = []
      rw [List.filter_append, hvis, ihs.2.1]
      rfl
    · exact ihs.2.2

/-- C7 witness: two successive drops of an Open channel schedule exactly
two fixed-delay reconnects and never show anything to the user. -/
theorem c7_witness :
    (({ ws := some { id := 0, readyState := 1 }, nextConnId := 1 } : WSClient).ws.isSome = true) ∧
    ((wsRounds 2 { ws := some { id := 0, readyState := 1 }, nextConnId := 1 }).2.filter
        isReconnectSchedule).length = 2 ∧
    (wsRounds 2 { ws := some { id := 0, readyState := 1 }, nextConnId := 1 }).2.filter
        userVisibleEffect = [] ∧
    (wsRounds 2 { ws := some { id := 0, readyState := 1 }, nextConnId := 1 }).1.ws.isSome = true :=
  ⟨by decide,
   (c7_reconnect_every_close 2
     { ws := some { id := 0, readyState := 1 }, nextConnId := 1 } (by decide)).1,
   (c7_reconnect_every_close 2
     { ws := some { id := 0, readyState := 1 }, nextConnId := 1 } (by decide)).2.1,
   (c7_reconnect_every_close 2
     { ws := some { id := 0, readyState := 1 }, nextConnId := 1 } (by decide)).2.2⟩

theorem uamAt_scroll_effects (mp : String → String) (c : String) (i : Nat)
    (st : ClientState) :
    (Effect.smoothScroll ∈ (updateAssistantMessageAt mp c i st).2) ↔
      (st.geom.scrollHeight - st.geom.scrollTop - st.geom.clientHeight < 100 ∨
       st.isScrolledManually = false) := by
  by_cases h1 : st.geom.scrollHeight - st.geom.scrollTop - st.geom.clientHeight < 100 <;>
  by_cases h2 : st.isScrolledManually <;>
    simp [updateAssistantMessageAt, scrollToBottom, h1, h2]

/-- A mid-stream client whose viewport sits 700px above the bottom while
the manual-scroll flag is unset (content growth moves the bottom away
without firing any scroll event). -/
def c9State : ClientState :=
  { emptyClient with
    messages := [assistantPlaceholder],
    currentAssistantMessage := some 0,
    geom := { scrollTop := 0, scrollHeight := 1000, clientHeight := 300 } }

/-- C9 counterexample: on a chunk update with the viewport 700px above
the bottom — not at the bottom under the code's own 50px test — the
update still auto-scrolls, because the manual-scroll flag is unset; so
auto-scroll is NOT triggered only when the viewport was already at the
bottom. -/
theorem c9_counterexample :
    Effect.smoothScroll ∈ (updateAssistantMessage id "Hi" none c9State).2 ∧
    ¬ ((c9State.geom.scrollHeight - c9State.geom.clientHeight -
        c9State.geom.scrollTop).natAbs < 50) := by decide

/-- C9 amended: auto-scroll on a chunk update of the active session fires
iff the viewport is within 100px of the bottom or the manual-scroll flag
is unset; a user scroll ending 100px or more above the bottom sets the
flag and suppresses auto-scroll while the viewport stays there, and a
user scroll back to within 50px of the bottom clears the flag again. -/
theorem c9_amended_scroll_condition (mp : String → String) (c : String)
    (st : ClientState) (i : Nat) (hcur : st.currentAssistantMessage = some i) :
    ((Effect.smoothScroll ∈ (updateAssistantMessage mp c none st).2) ↔
      (st.geom.scrollHeight - st.geom.scrollTop - st.geom.clientHeight < 100 ∨
       st.isScrolledManually = false)) ∧
    (100 ≤ st.geom.scrollHeight - st.geom.clientHeight - st.geom.scrollTop →
      (handleScroll st).isScrolledManually = true ∧
      Effect.smoothScroll ∉ (updateAssistantMessage mp c none (handleScroll st)).2) ∧
    ((st.geom.scrollHeight - st.geom.clientHeight - st.geom.scrollTop).natAbs < 50 →
      (handleScroll st).isScrolledManually = false) := by
  refine ⟨?_, ?_, ?_⟩
  · rw [uam_none_eq mp c st i hcur]
    exact uamAt_scroll_effects mp c i st
  · intro hfar
    have hflag : (handleScroll st).isScrolledManually = true := by
      unfold handleScroll
      rw [if_neg (by omega)]
    have hcur' : (handleScroll st).currentAssistantMessage = some i := by
      unfold handleScroll
      split <;> simpa using hcur
    have hgeom : (handleScroll st).geom = st.geom := by
      unfold handleScroll
      split <;> rfl
    refine ⟨hflag, ?_⟩
    rw [uam_none_eq mp c (handleScroll st) i hcur', uamAt_scroll_effects, hgeom, hflag]
    rintro (hlt | hff)
    · omega
    · exact absurd hff (by decide)
  · intro hnear
    unfold handleScroll
    rw [if_pos hnear]

/-- C9 amended witness: with the viewport 700px above the bottom, a user
scroll sets the flag and the next chunk update does not auto-scroll; a
scroll at the bottom clears the flag. -/
theorem c9_amended_witness :
    c9State.currentAssistantMessage = some 0 ∧
    ((handleScroll c9State).isScrolledManually = true ∧
     Effect.smoothScroll ∉ (updateAssistantMessage id "Hi" none (handleScroll c9State)).2) ∧
    (handleScroll { c9State with
      geom := { scrollTop := 700, scrollHeight := 1000, clientHeight := 300 } }).isScrolledManually =
      false :=
  ⟨rfl,
   (c9_amended_scroll_condition id "Hi" c9State 0 rfl).2.1 (by decide),
   (c9_amended_scroll_condition id "Hi"
     { c9State with
       geom := { scrollTop := 700, scrollHeight := 1000, clientHeight := 300 } }
     0 rfl).2.2 (by decide)⟩

end Aiaio
